import Mathlib

/-!
Verification of the api-gateway reconciliation core: the Istio desired-state
creator (`virtualServiceCreator.Create`), the generic reconciliation
processor (`EvaluateReconciliation`, `getActualState`, `getObjectChanges`),
and the OAuth2 client-credentials token helper (`GetAccessToken`).

The Go source under `internal/processing` is embedded as pure Lean
functions.  Collaborator code of the repository that is not part of the
given sources (helper predicates, duplicate-path filtering, the object
builders, ownership-label constants) is modelled from the specification;
each such definition carries a doc comment starting with
`Modelled from the spec:`.
-/

/-! ## Data model: APIRule and its parts -/

/-- A backing service reference: name and port (Go `Service{Name *string, Port *uint32}`). -/
structure Service where
  name : String
  port : Nat
deriving DecidableEq, Repr

/-- An access strategy entry of a Rule; `handler` is the strategy name
(for example "allow", "noop", "oauth2_introspection", "jwt"). -/
structure AccessStrategy where
  handler : String
deriving DecidableEq, Repr

/-- Modelled from the spec: the cookie mutator constructed from a Rule's
declared mutator definitions ("optional Cookie/Header mutators"). -/
structure CookieMutator where
  cookies : List (String × String)
deriving DecidableEq, Repr

/-- Whether the cookie mutator declares any cookies (Go `HasCookies`). -/
def CookieMutator.HasCookies (m : CookieMutator) : Bool :=
  !m.cookies.isEmpty

/-- Modelled from the spec: the serialized Cookie header value (Go `ToString`). -/
def CookieMutator.ToString (m : CookieMutator) : String :=
  String.intercalate "; " (m.cookies.map fun kv => kv.1 ++ "=" ++ kv.2)

/-- Modelled from the spec: the header mutator constructed from a Rule's
declared mutator definitions. -/
structure HeaderMutator where
  headers : List (String × String)
deriving DecidableEq, Repr

/-- Whether the header mutator declares any headers (Go `HasHeaders`). -/
def HeaderMutator.HasHeaders (m : HeaderMutator) : Bool :=
  !m.headers.isEmpty

deriving instance DecidableEq for Except

/-- A per-path Rule of an APIRule.  `cookieMutator` and `headerMutator`
embed the results of the (fallible) Go accessors `GetCookieMutator` and
`GetHeaderMutator`, which are modelled from the spec: "mutator
construction can fail (malformed definitions)". -/
structure Rule where
  path : String
  accessStrategies : List AccessStrategy
  service : Option Service
  cookieMutator : Except String CookieMutator
  headerMutator : Except String HeaderMutator
deriving DecidableEq, Repr

/-- The Go accessor `rule.GetCookieMutator()`; its result is embedded in the Rule. -/
def Rule.GetCookieMutator (r : Rule) : Except String CookieMutator :=
  r.cookieMutator

/-- The Go accessor `rule.GetHeaderMutator()`; its result is embedded in the Rule. -/
def Rule.GetHeaderMutator (r : Rule) : Except String HeaderMutator :=
  r.headerMutator

/-- A user-declared APIRule: host, gateway, default service and the ordered rules. -/
structure APIRule where
  name : String
  namespace' : String
  host : String
  gateway : String
  service : Service
  rules : List Rule
deriving DecidableEq, Repr

/-! ## Data model: the produced VirtualService -/

/-- An HTTP URI match: path-prefix or regex (Go builders `Uri().Prefix` / `Uri().Regex`). -/
inductive UriMatch where
  | pfx (s : String)
  | regex (s : String)
deriving DecidableEq, Repr

/-- A route destination: host and port. -/
structure RouteDestination where
  host : String
  port : Nat
deriving DecidableEq, Repr

/-- The CORS policy attached to every route, taken from configuration. -/
structure CorsPolicy where
  allowOrigins : List String
  allowMethods : List String
  allowHeaders : List String
deriving DecidableEq, Repr

/-- The request-header section of a route: the Host rewrite, an optional
Cookie header value and optional extra request headers. -/
structure HeadersSpec where
  hostHeader : String
  requestCookies : Option String
  requestHeaders : Option (List (String × String))
deriving DecidableEq, Repr

/-- One HTTP route of the VirtualService spec. -/
structure HTTPRoute where
  uriMatch : UriMatch
  destination : RouteDestination
  corsPolicy : CorsPolicy
  timeoutSeconds : Nat
  headers : HeadersSpec
deriving DecidableEq, Repr

/-- The VirtualService spec: hosts, gateways and the ordered HTTP routes. -/
structure VirtualServiceSpec where
  hosts : List String
  gateways : List String
  http : List HTTPRoute
deriving DecidableEq, Repr

/-- A VirtualService object: identity fields, labels and spec.  Labels are
kept as an ordered association list of key/value pairs. -/
structure VirtualService where
  name : String
  generateName : String
  namespace' : String
  resourceVersion : String
  labels : List (String × String)
  spec : VirtualServiceSpec
deriving DecidableEq, Repr

/-! ## Helper functions of the repository outside the given sources -/

/-- Modelled from the spec: `helpers.GetHostWithDomain` resolves the
external host against the default domain ("externally-resolved
host+domain"): a host already carrying a dot is kept, a short host gets
the default domain appended. -/
def GetHostWithDomain (host defaultDomainName : String) : String :=
  if host.contains '.' then host else host ++ "." ++ defaultDomainName

/-- Modelled from the spec: `helpers.GetHostLocalDomain` forms the
cluster-local DNS name of a backing service, as in the spec example
destination `svc.ns...`. -/
def GetHostLocalDomain (serviceName serviceNamespace : String) : String :=
  serviceName ++ "." ++ serviceNamespace ++ ".svc.cluster.local"

/-- Modelled from the spec: `helpers.FindServiceNamespace`; the spec's
service model carries no namespace field, so the APIRule's namespace is
used for the backing service. -/
def FindServiceNamespace (api : APIRule) (_rule : Rule) : String :=
  api.namespace'

/-- Modelled from the spec: `processing.IsSecured` — a Rule counts as
secured exactly when it declares at least one access strategy ("if the
Rule has no access strategy ... route directly"). -/
def IsSecured (rule : Rule) : Bool :=
  !rule.accessStrategies.isEmpty

/-- Modelled from the spec: `processing.IsJwtSecured` — a Rule is
JWT-validated when one of its access strategies is the "jwt" handler. -/
def IsJwtSecured (rule : Rule) : Bool :=
  rule.accessStrategies.any fun s => s.handler == "jwt"

/-- Modelled from the spec: recursion worker of `FilterDuplicatePaths`,
keeping the first Rule for each path. -/
def FilterDuplicatePathsAux : List String → List Rule → List Rule
  | _, [] => []
  | seen, r :: rest =>
    if seen.contains r.path then FilterDuplicatePathsAux seen rest
    else r :: FilterDuplicatePathsAux (r.path :: seen) rest

/-- Modelled from the spec: `processing.FilterDuplicatePaths` drops every
Rule whose path already occurred earlier ("two Rules both with path /a ⇒
exactly one Route for /a"). -/
def FilterDuplicatePaths (rules : List Rule) : List Rule :=
  FilterDuplicatePathsAux [] rules

/-- Modelled from the spec: the current ownership label key. -/
def OwnerLabel : String :=
  "apirule.gateway.kyma-project.io/v1beta1"

/-- Modelled from the spec: the legacy (v1alpha1) ownership label key. -/
def OwnerLabelv1alpha1 : String :=
  "apirule.gateway.kyma-project.io/v1alpha1"

/-- Modelled from the spec: `processing.GetOwnerLabels` — the ownership
labels "<name>.<namespace>" used for the label-selected lookup. -/
def GetOwnerLabels (api : APIRule) : List (String × String) :=
  [(OwnerLabelv1alpha1, api.name ++ "." ++ api.namespace')]

/-! ## The Istio desired-state creator -/

/-- The reconciliation configuration captured by the Istio creator
(Go struct `virtualServiceCreator`). -/
structure virtualServiceCreator where
  oathkeeperSvc : String
  oathkeeperSvcPort : Nat
  corsConfig : CorsPolicy
  defaultDomainName : String
  additionalLabels : List (String × String)
  httpTimeoutDuration : Nat
deriving DecidableEq, Repr

/-- The per-rule body of the loop in `virtualServiceCreator.Create`
(istio/virtual_service_processor.go lines 49-113): routing-target
decision, path match, CORS, timeout, Host rewrite and — for JWT-secured
rules only — the fallible cookie/header mutators. -/
def createRoute (r : virtualServiceCreator) (api : APIRule) (rule : Rule) :
    Except String HTTPRoute :=
  let serviceNamespace := FindServiceNamespace api rule
  let routeDirectlyToService := !IsSecured rule || IsJwtSecured rule
  let dest : RouteDestination :=
    if routeDirectlyToService then
      match rule.service with
      | some svc => ⟨GetHostLocalDomain svc.name serviceNamespace, svc.port⟩
      | none => ⟨GetHostLocalDomain api.service.name serviceNamespace, api.service.port⟩
    else ⟨r.oathkeeperSvc, r.oathkeeperSvcPort⟩
  let uriMatch : UriMatch :=
    if rule.path = "/*" then .pfx "/" else .regex rule.path
  let cors : CorsPolicy :=
    ⟨r.corsConfig.allowOrigins, r.corsConfig.allowMethods, r.corsConfig.allowHeaders⟩
  let hostHeader := GetHostWithDomain api.host r.defaultDomainName
  if IsJwtSecured rule then
    match rule.GetCookieMutator with
    | .error e => .error e
    | .ok cookieMutator =>
      match rule.GetHeaderMutator with
      | .error e => .error e
      | .ok headerMutator =>
        .ok { uriMatch := uriMatch
              destination := dest
              corsPolicy := cors
              timeoutSeconds := r.httpTimeoutDuration
              headers :=
                { hostHeader := hostHeader
                  requestCookies :=
                    if cookieMutator.HasCookies then some cookieMutator.ToString else none
                  requestHeaders :=
                    if headerMutator.HasHeaders then some headerMutator.headers else none } }
  else
    .ok { uriMatch := uriMatch
          destination := dest
          corsPolicy := cors
          timeoutSeconds := r.httpTimeoutDuration
          headers := { hostHeader := hostHeader, requestCookies := none, requestHeaders := none } }

/-- The route-building loop of `Create`: one route per rule, an error in
any iteration aborts the whole construction (Go early `return nil, err`). -/
def createRoutes (f : Rule → Except String HTTPRoute) : List Rule → Except String (List HTTPRoute)
  | [] => .ok []
  | r :: rest =>
    match f r with
    | .error e => .error e
    | .ok rt =>
      match createRoutes f rest with
      | .error e => .error e
      | .ok rts => .ok (rt :: rts)

/-- `virtualServiceCreator.Create` (istio/virtual_service_processor.go):
duplicate-path filtering, one route per surviving rule, then the object
with generate-name, namespace, both ownership labels, the configured
additional labels and the aggregated spec. -/
def virtualServiceCreator.Create (r : virtualServiceCreator) (api : APIRule) :
    Except String VirtualService :=
  let filteredRules := FilterDuplicatePaths api.rules
  match createRoutes (createRoute r api) filteredRules with
  | .error e => .error e
  | .ok routes =>
    .ok { name := ""
          generateName := api.name ++ "-"
          namespace' := api.namespace'
          resourceVersion := ""
          labels :=
            [(OwnerLabel, api.name ++ "." ++ api.namespace'),
             (OwnerLabelv1alpha1, api.name ++ "." ++ api.namespace')] ++ r.additionalLabels
          spec :=
            { hosts := [GetHostWithDomain api.host r.defaultDomainName]
              gateways := [api.gateway]
              http := routes } }

/-! ## The generic reconciliation processor -/

/-- The action kind of an object change. -/
inductive ActionKind where
  | create
  | update
deriving DecidableEq, Repr

/-- `processing.ObjectChange`: a tagged apply action carrying the object.
Modelled from the spec: "tagged result \x7bCreate, Update\x7d consumed by an
external apply step". -/
structure ObjectChange where
  action : ActionKind
  obj : VirtualService
deriving DecidableEq, Repr

/-- Modelled from the spec: `processing.NewObjectCreateAction`. -/
def NewObjectCreateAction (obj : VirtualService) : ObjectChange :=
  { action := .create, obj := obj }

/-- Modelled from the spec: `processing.NewObjectUpdateAction`. -/
def NewObjectUpdateAction (obj : VirtualService) : ObjectChange :=
  { action := .update, obj := obj }

/-- The cluster client collaborator: a label-selected List call, returning
either a lookup error or the matching VirtualServices. -/
abbrev ClusterClient := List (String × String) → Except String (List VirtualService)

/-- `VirtualServiceProcessor.getActualState`
(processors/virtual_service_processor.go lines 42-55): list by ownership
labels; an error propagates, one or more items yield the first item, zero
items yield no actual object. -/
def getActualState (client : ClusterClient) (api : APIRule) :
    Except String (Option VirtualService) :=
  let labels := GetOwnerLabels api
  match client labels with
  | .error e => .error e
  | .ok vsList =>
    match vsList with
    | v :: _ => .ok (some v)
    | [] => .ok none

/-- `VirtualServiceProcessor.getObjectChanges`
(processors/virtual_service_processor.go lines 57-64): with an actual
object, an Update of the actual object whose Spec is replaced by the
desired Spec; otherwise a Create of the desired object. -/
def getObjectChanges (desiredVs : VirtualService) (actualVs : Option VirtualService) :
    ObjectChange :=
  match actualVs with
  | some actual => NewObjectUpdateAction { actual with spec := desiredVs.spec }
  | none => NewObjectCreateAction desiredVs

/-- `VirtualServiceProcessor.EvaluateReconciliation`
(processors/virtual_service_processor.go lines 22-36).  The Go method
returns a pair (changes, error); an error from desired-state construction
or from the lookup is returned with an empty change list, success returns
the single diff result.  `create` stands for the `Creator.Create` of the
processor's strategy. -/
def EvaluateReconciliation (create : APIRule → Except String VirtualService)
    (client : ClusterClient) (api : APIRule) : List ObjectChange × Option String :=
  match create api with
  | .error e => ([], some e)
  | .ok desired =>
    match getActualState client api with
    | .error e => ([], some e)
    | .ok actual => ([getObjectChanges desired actual], none)

/-! ## The OAuth2 client-credentials token helper -/

/-- An OAuth2 token as returned by the token endpoint; `expired` embeds
the expiry check of the library's validity test. -/
structure Token where
  accessToken : String
  tokenType : String
  expired : Bool
deriving DecidableEq, Repr

/-- Modelled from the spec: token validity ("invalid/expired token") — a
token is valid when it carries a non-empty access token and is not expired. -/
def Token.Valid (t : Token) : Bool :=
  t.accessToken != "" && !t.expired

/-- The client-credentials configuration (Go `clientcredentials.Config`). -/
structure OAuth2Cfg where
  clientID : String
  clientSecret : String
  tokenURL : String
  endpointParams : List (String × String)
deriving DecidableEq, Repr

/-- The test configuration consulted by `GetAccessToken` (Go `*Config`,
field `ClientConfig.ClientTimeout`). -/
structure JwtConfig where
  clientTimeout : Nat
deriving DecidableEq, Repr

/-- The HTTP client built by `GetAccessToken` (unnamed/part_000 lines
21-27): a transport whose TLS configuration sets InsecureSkipVerify to
true, the configured timeout, and a cookie jar. -/
structure HttpClient where
  tlsInsecureSkipVerify : Bool
  timeout : Nat
  hasCookieJar : Bool
deriving DecidableEq, Repr

/-- The HTTP-client construction of `GetAccessToken`: the Go source
hardcodes `InsecureSkipVerify: true` in the transport's TLS config. -/
def buildHttpClient (config : JwtConfig) : HttpClient :=
  { tlsInsecureSkipVerify := true
    timeout := config.clientTimeout
    hasCookieJar := true }

/-- The token-format handling of `GetAccessToken` (lines 29-32): when a
variadic token-type argument is supplied, the endpoint parameters are
replaced by the single token_format entry built from its first element. -/
def applyTokenFormat (oauth2Cfg : OAuth2Cfg) (tokenType : List String) : OAuth2Cfg :=
  match tokenType with
  | t :: _ => { oauth2Cfg with endpointParams := [("token_format", t)] }
  | [] => oauth2Cfg

/-- The failure modes of `GetAccessToken`. -/
inductive TokenError where
  | transport (msg : String)
  | invalidToken (t : Token)
  | wrongTokenType (typ : String)
deriving DecidableEq, Repr

/-- `GetAccessToken` (unnamed/part_000 lines 16-46).  The client-credentials
grant performed by the oauth2 library is an external collaborator and is
passed as the oracle `fetchToken`, which receives the (possibly
token-format-extended) configuration and the constructed HTTP client; the
cookie-jar construction of the standard library never fails and is folded
into the client.  The Go function returns a pair (token string, error). -/
def GetAccessToken (fetchToken : OAuth2Cfg → HttpClient → Except String Token)
    (oauth2Cfg : OAuth2Cfg) (config : JwtConfig) (tokenType : List String) :
    String × Option TokenError :=
  let httpClient := buildHttpClient config
  let cfg := applyTokenFormat oauth2Cfg tokenType
  match fetchToken cfg httpClient with
  | .error e => ("", some (.transport e))
  | .ok token =>
    if !token.Valid then ("", some (.invalidToken token))
    else if token.tokenType != "Bearer" then ("", some (.wrongTokenType token.tokenType))
    else (token.accessToken, none)

/-! ## Concrete fixtures used by the witnesses -/

/-- A concrete reconciliation configuration. -/
def testCfg : virtualServiceCreator :=
  { oathkeeperSvc := "ory-oathkeeper-proxy.kyma-system.svc.cluster.local"
    oathkeeperSvcPort := 4455
    corsConfig := ⟨["*"], ["GET", "POST"], ["Authorization"]⟩
    defaultDomainName := "kyma.example.com"
    additionalLabels := [("managed-by", "api-gateway")]
    httpTimeoutDuration := 180 }

/-- A rule with no access strategy: routed directly, path-wildcard. -/
def testRuleAllow : Rule :=
  { path := "/*", accessStrategies := [], service := none
    cookieMutator := .ok ⟨[]⟩, headerMutator := .ok ⟨[]⟩ }

/-- A JWT-secured rule with a rule-level service and a non-empty cookie mutator. -/
def testRuleJwt : Rule :=
  { path := "/jwt", accessStrategies := [⟨"jwt"⟩], service := some ⟨"svc2", 8080⟩
    cookieMutator := .ok ⟨[("session", "abc")]⟩, headerMutator := .ok ⟨[]⟩ }

/-- A proxy-mediated rule (oauth2_introspection). -/
def testRuleProxy : Rule :=
  { path := "/orders", accessStrategies := [⟨"oauth2_introspection"⟩], service := none
    cookieMutator := .ok ⟨[]⟩, headerMutator := .ok ⟨[]⟩ }

/-- A rule whose path duplicates `testRuleAllow`; filtered out. -/
def testRuleDup : Rule :=
  { path := "/*", accessStrategies := [⟨"allow"⟩], service := none
    cookieMutator := .ok ⟨[]⟩, headerMutator := .ok ⟨[]⟩ }

/-- A JWT-secured rule whose cookie-mutator construction fails. -/
def testRuleBadJwt : Rule :=
  { path := "/bad", accessStrategies := [⟨"jwt"⟩], service := none
    cookieMutator := .error "malformed cookie mutator", headerMutator := .ok ⟨[]⟩ }

/-- A concrete APIRule exercising all routing branches. -/
def testApi : APIRule :=
  { name := "test-apirule", namespace' := "default", host := "foo"
    gateway := "kyma-system/kyma-gateway", service := ⟨"svc", 80⟩
    rules := [testRuleAllow, testRuleJwt, testRuleProxy, testRuleDup] }

/-- A concrete APIRule whose only rule has a failing mutator. -/
def testApiBad : APIRule :=
  { testApi with rules := [testRuleBadJwt] }

/-- Fallback object used only to totalize the fixture extraction. -/
def fallbackVs : VirtualService :=
  ⟨"", "", "", "", [], ⟨[], [], []⟩⟩

/-- The desired VirtualService computed for `testApi`. -/
def testVs : VirtualService :=
  (virtualServiceCreator.Create testCfg testApi).toOption.getD fallbackVs

/-- A concrete pre-existing actual object with its own identity fields. -/
def testActualVs : VirtualService :=
  { name := "test-apirule-x1", generateName := "test-apirule-"
    namespace' := "default", resourceVersion := "42"
    labels := GetOwnerLabels testApi, spec := ⟨[], [], []⟩ }

/-- A cluster client whose lookup returns no items. -/
def clientEmpty : ClusterClient := fun _ => .ok []

/-- A cluster client whose lookup returns two items. -/
def clientTwo : ClusterClient := fun _ => .ok [testActualVs, fallbackVs]

/-- A cluster client whose lookup fails. -/
def clientErr : ClusterClient := fun _ => .error "list failed"

/-! ## Shared lemmas about the creator -/

/-- The route loop succeeds exactly elementwise: a successful `createRoutes`
run pairs every rule with the route its body produced, in order. -/
theorem createRoutes_ok_forall₂ {f : Rule → Except String HTTPRoute}
    {rules : List Rule} {routes : List HTTPRoute}
    (h : createRoutes f rules = .ok routes) :
    List.Forall₂ (fun r rt => f r = .ok rt) rules routes := by
  induction rules generalizing routes with
  | nil =>
    unfold createRoutes at h
    cases h
    exact List.Forall₂.nil
  | cons r rest ih =>
    unfold createRoutes at h
    split at h
    · cases h
    · rename_i rt hf
      split at h
      · cases h
      · rename_i rts hrest
        cases h
        exact List.Forall₂.cons hf (ih hrest)

/-- A member of the left list of a `Forall₂` has a related partner. -/
theorem forall₂_exists_of_mem {α β : Type} {R : α → β → Prop} {l₁ : List α} {l₂ : List β}
    (h : List.Forall₂ R l₁ l₂) {a : α} (ha : a ∈ l₁) : ∃ b, R a b := by
  induction h with
  | nil => cases ha
  | cons hr _ ih =>
    rcases List.mem_cons.mp ha with rfl | ha'
    · exact ⟨_, hr⟩
    · exact ih ha'

/-- If the body fails on a member, the whole loop fails. -/
theorem createRoutes_error_of_mem {f : Rule → Except String HTTPRoute}
    {rules : List Rule} {r : Rule} (hm : r ∈ rules)
    (he : ∃ e, f r = .error e) :
    ∃ e, createRoutes f rules = .error e := by
  induction rules with
  | nil => cases hm
  | cons a rest ih =>
    rcases List.mem_cons.mp hm with rfl | hm'
    · obtain ⟨e, he⟩ := he
      refine ⟨e, ?_⟩
      unfold createRoutes
      rw [he]
    · cases hf : f a with
      | error e =>
        refine ⟨e, ?_⟩
        unfold createRoutes
        rw [hf]
      | ok rt =>
        obtain ⟨e, hre⟩ := ih hm'
        refine ⟨e, ?_⟩
        unfold createRoutes
        rw [hf, hre]

/-- Structure of a successful `Create`: the routes come from the loop over
the filtered rules, and every other field is the literal the builder sets. -/
theorem Create_ok_elim {r : virtualServiceCreator} {api : APIRule} {vs : VirtualService}
    (h : virtualServiceCreator.Create r api = .ok vs) :
    createRoutes (createRoute r api) (FilterDuplicatePaths api.rules) = .ok vs.spec.http
    ∧ vs.name = ""
    ∧ vs.generateName = api.name ++ "-"
    ∧ vs.namespace' = api.namespace'
    ∧ vs.resourceVersion = ""
    ∧ vs.labels = [(OwnerLabel, api.name ++ "." ++ api.namespace'),
        (OwnerLabelv1alpha1, api.name ++ "." ++ api.namespace')] ++ r.additionalLabels
    ∧ vs.spec.hosts = [GetHostWithDomain api.host r.defaultDomainName]
    ∧ vs.spec.gateways = [api.gateway] := by
  simp only [virtualServiceCreator.Create] at h
  split at h
  · cases h
  · rename_i routes hroutes
    cases h
    exact ⟨hroutes, rfl, rfl, rfl, rfl, rfl, rfl, rfl⟩

/-- An error of `createRoute` on a surviving rule aborts the whole `Create`. -/
theorem Create_error_of_mem_bad {r : virtualServiceCreator} {api : APIRule} {rule : Rule}
    (hm : rule ∈ FilterDuplicatePaths api.rules)
    (hbad : ∃ e, createRoute r api rule = .error e) :
    ∃ e, virtualServiceCreator.Create r api = .error e := by
  obtain ⟨e, hre⟩ := createRoutes_error_of_mem hm hbad
  refine ⟨e, ?_⟩
  simp only [virtualServiceCreator.Create]
  rw [hre]

/-- Field structure of a successful `createRoute`: destination follows the
routing-target decision, the URI match follows the path-match policy, and
CORS, timeout and Host rewrite come from the configuration. -/
theorem createRoute_ok_elim {r : virtualServiceCreator} {api : APIRule} {rule : Rule}
    {rt : HTTPRoute} (h : createRoute r api rule = .ok rt) :
    rt.destination =
      (if !IsSecured rule || IsJwtSecured rule then
        match rule.service with
        | some svc => ⟨GetHostLocalDomain svc.name (FindServiceNamespace api rule), svc.port⟩
        | none => ⟨GetHostLocalDomain api.service.name (FindServiceNamespace api rule),
            api.service.port⟩
      else ⟨r.oathkeeperSvc, r.oathkeeperSvcPort⟩)
    ∧ rt.uriMatch = (if rule.path = "/*" then UriMatch.pfx "/" else UriMatch.regex rule.path)
    ∧ rt.corsPolicy =
        ⟨r.corsConfig.allowOrigins, r.corsConfig.allowMethods, r.corsConfig.allowHeaders⟩
    ∧ rt.timeoutSeconds = r.httpTimeoutDuration
    ∧ rt.headers.hostHeader = GetHostWithDomain api.host r.defaultDomainName := by
  simp only [createRoute] at h
  split at h
  · split at h
    · cases h
    · split at h
      · cases h
      · cases h
        exact ⟨rfl, rfl, rfl, rfl, rfl⟩
  · cases h
    exact ⟨rfl, rfl, rfl, rfl, rfl⟩

/-- A route built for a rule that is not JWT-secured carries no request
cookie or header mutation. -/
theorem createRoute_ok_headers_nonjwt {r : virtualServiceCreator} {api : APIRule}
    {rule : Rule} {rt : HTTPRoute} (hj : IsJwtSecured rule = false)
    (h : createRoute r api rule = .ok rt) :
    rt.headers.requestCookies = none ∧ rt.headers.requestHeaders = none := by
  simp only [createRoute] at h
  split at h
  · rename_i hjt
    simp [hj] at hjt
  · cases h
    exact ⟨rfl, rfl⟩

/-- A route built for a JWT-secured rule: both mutators were constructed
successfully, and each mutation is attached exactly when non-empty. -/
theorem createRoute_ok_headers_jwt {r : virtualServiceCreator} {api : APIRule}
    {rule : Rule} {rt : HTTPRoute} (hj : IsJwtSecured rule = true)
    (h : createRoute r api rule = .ok rt) :
    ∃ cm hm, rule.GetCookieMutator = .ok cm ∧ rule.GetHeaderMutator = .ok hm
      ∧ rt.headers.requestCookies = (if cm.HasCookies then some cm.ToString else none)
      ∧ rt.headers.requestHeaders = (if hm.HasHeaders then some hm.headers else none) := by
  simp only [createRoute] at h
  split at h
  · split at h
    · cases h
    · rename_i cm hcm
      split at h
      · cases h
      · rename_i hm hhm
        cases h
        exact ⟨cm, hm, hcm, hhm, rfl, rfl⟩
  · rename_i hjf
    exact absurd hj hjf

/-- A JWT-secured rule with a failing cookie- or header-mutator makes
`createRoute` fail. -/
theorem createRoute_error_of_bad_mutator {r : virtualServiceCreator} {api : APIRule}
    {rule : Rule} (hj : IsJwtSecured rule = true)
    (hbad : (∃ e, rule.GetCookieMutator = .error e)
      ∨ (∃ e, rule.GetHeaderMutator = .error e)) :
    ∃ e, createRoute r api rule = .error e := by
  cases hcm : rule.GetCookieMutator with
  | error e =>
    refine ⟨e, ?_⟩
    simp only [createRoute]
    split
    · rw [hcm]
    · rename_i hjf
      exact absurd hj hjf
  | ok cm =>
    cases hhm : rule.GetHeaderMutator with
    | error e =>
      refine ⟨e, ?_⟩
      simp only [createRoute]
      split
      · rw [hcm, hhm]
      · rename_i hjf
        exact absurd hj hjf
    | ok hm =>
      rcases hbad with ⟨e, he⟩ | ⟨e, he⟩
      · rw [hcm] at he
        cases he
      · rw [hhm] at he
        cases he

/-! ## Claim properties and theorems -/

/-- The routing-target property of one rule/route pair: with no access
strategy or a JWT-validated strategy the destination is the rule-level
service (falling back to the APIRule default service), otherwise it is the
configured oathkeeper proxy endpoint. -/
def destinationFollowsStrategy (r : virtualServiceCreator) (api : APIRule)
    (rule : Rule) (rt : HTTPRoute) : Prop :=
  ((rule.accessStrategies = [] ∨ IsJwtSecured rule = true) →
    rt.destination =
      match rule.service with
      | some svc => ⟨GetHostLocalDomain svc.name (FindServiceNamespace api rule), svc.port⟩
      | none => ⟨GetHostLocalDomain api.service.name (FindServiceNamespace api rule),
          api.service.port⟩)
  ∧ (¬(rule.accessStrategies = [] ∨ IsJwtSecured rule = true) →
    rt.destination = ⟨r.oathkeeperSvc, r.oathkeeperSvcPort⟩)

/-- C1: for every APIRule and every surviving rule, the produced route's
destination is the rule-level (or default) backend service when the rule
has no access strategy or a JWT-validated one, and the configured
oathkeeper proxy endpoint for every other access strategy. -/
theorem claim_C1_routing_target (r : virtualServiceCreator) (api : APIRule)
    (vs : VirtualService) (h : virtualServiceCreator.Create r api = .ok vs) :
    List.Forall₂ (destinationFollowsStrategy r api)
      (FilterDuplicatePaths api.rules) vs.spec.http := by
  refine (createRoutes_ok_forall₂ (Create_ok_elim h).1).imp ?_
  intro rule rt hrt
  have hd := (createRoute_ok_elim hrt).1
  constructor
  · intro hdir
    have hcond : (!IsSecured rule || IsJwtSecured rule) = true := by
      rcases hdir with hempty | hjwt
      · simp [IsSecured, hempty]
      · simp [hjwt]
    rw [hd, if_pos hcond]
  · intro hprox
    push_neg at hprox
    obtain ⟨hne, hjf⟩ := hprox
    have hcond : (!IsSecured rule || IsJwtSecured rule) = false := by
      have : rule.accessStrategies.isEmpty = false := by
        simpa [List.isEmpty_iff] using hne
      simp [IsSecured, this, Bool.eq_false_iff.mpr hjf]
    rw [hd, if_neg (by simp [hcond])]

/-- C1 witness: the routing-target property holds for the concrete fixture. -/
theorem claim_C1_witness :
    List.Forall₂ (destinationFollowsStrategy testCfg testApi)
      (FilterDuplicatePaths testApi.rules) testVs.spec.http :=
  claim_C1_routing_target testCfg testApi testVs (by rfl)

/-- The path-match property of one rule/route pair: the literal "/*"
yields a prefix match on "/", every other literal path is used verbatim
as a regex match. -/
def pathMatchPolicy (rule : Rule) (rt : HTTPRoute) : Prop :=
  (rule.path = "/*" → rt.uriMatch = UriMatch.pfx "/")
  ∧ (rule.path ≠ "/*" → rt.uriMatch = UriMatch.regex rule.path)

/-- C3: for every surviving rule, the path "/*" compiles to a URI prefix
match on "/", and any other literal path becomes a regex match with the
path string taken verbatim. -/
theorem claim_C3_path_match (r : virtualServiceCreator) (api : APIRule)
    (vs : VirtualService) (h : virtualServiceCreator.Create r api = .ok vs) :
    List.Forall₂ pathMatchPolicy (FilterDuplicatePaths api.rules) vs.spec.http := by
  refine (createRoutes_ok_forall₂ (Create_ok_elim h).1).imp ?_
  intro rule rt hrt
  have hu := (createRoute_ok_elim hrt).2.1
  constructor
  · intro hp
    rw [hu, if_pos hp]
  · intro hp
    rw [hu, if_neg hp]

/-- C3 witness: the path-match property holds for the concrete fixture. -/
theorem claim_C3_witness :
    List.Forall₂ pathMatchPolicy (FilterDuplicatePaths testApi.rules) testVs.spec.http :=
  claim_C3_path_match testCfg testApi testVs (by rfl)

/-- C6: the desired spec carries exactly one route per surviving rule, in
the same order: the route list and the filtered rule list have equal
length and correspond pointwise through the per-rule constructor. -/
theorem claim_C6_route_count (r : virtualServiceCreator) (api : APIRule)
    (vs : VirtualService) (h : virtualServiceCreator.Create r api = .ok vs) :
    vs.spec.http.length = (FilterDuplicatePaths api.rules).length
    ∧ List.Forall₂ (fun rule rt => createRoute r api rule = .ok rt)
        (FilterDuplicatePaths api.rules) vs.spec.http := by
  have hf := createRoutes_ok_forall₂ (Create_ok_elim h).1
  exact ⟨hf.length_eq.symm, hf⟩

/-- C6 witness: the fixture has four rules, one a duplicate, and its
desired spec carries exactly three routes. -/
theorem claim_C6_witness :
    testVs.spec.http.length = (FilterDuplicatePaths testApi.rules).length
    ∧ List.Forall₂ (fun rule rt => createRoute testCfg testApi rule = .ok rt)
        (FilterDuplicatePaths testApi.rules) testVs.spec.http :=
  claim_C6_route_count testCfg testApi testVs (by rfl)

/-- The mutator-attachment property of one rule/route pair: non-JWT rules
carry no request cookie/header mutation; JWT rules carry each mutation
exactly when the successfully constructed mutator is non-empty. -/
def mutatorAttachment (rule : Rule) (rt : HTTPRoute) : Prop :=
  (IsJwtSecured rule = false →
    rt.headers.requestCookies = none ∧ rt.headers.requestHeaders = none)
  ∧ (IsJwtSecured rule = true →
    ∃ cm hm, rule.GetCookieMutator = .ok cm ∧ rule.GetHeaderMutator = .ok hm
      ∧ (rt.headers.requestCookies ≠ none ↔ cm.HasCookies = true)
      ∧ (rt.headers.requestHeaders ≠ none ↔ hm.HasHeaders = true))

/-- C4: request cookie/header mutations appear only on JWT-validated
rules and exactly when the declared mutator is non-empty; a failing
cookie- or header-mutator construction on any surviving rule makes the
whole `Create` return an error and no object. -/
theorem claim_C4_mutators (r : virtualServiceCreator) (api : APIRule) :
    (∀ vs, virtualServiceCreator.Create r api = .ok vs →
      List.Forall₂ mutatorAttachment (FilterDuplicatePaths api.rules) vs.spec.http)
    ∧ (∀ rule ∈ FilterDuplicatePaths api.rules, IsJwtSecured rule = true →
      ((∃ e, rule.GetCookieMutator = .error e) ∨ (∃ e, rule.GetHeaderMutator = .error e)) →
      ∃ e, virtualServiceCreator.Create r api = .error e) := by
  constructor
  · intro vs h
    refine (createRoutes_ok_forall₂ (Create_ok_elim h).1).imp ?_
    intro rule rt hrt
    constructor
    · intro hjf
      exact createRoute_ok_headers_nonjwt hjf hrt
    · intro hjt
      obtain ⟨cm, hm, hcm, hhm, hc, hh⟩ := createRoute_ok_headers_jwt hjt hrt
      refine ⟨cm, hm, hcm, hhm, ?_, ?_⟩
      · rw [hc]
        cases hb : cm.HasCookies <;> simp [hb]
      · rw [hh]
        cases hb : hm.HasHeaders <;> simp [hb]
  · intro rule hm hjt hbad
    exact Create_error_of_mem_bad hm (createRoute_error_of_bad_mutator hjt hbad)

/-- C4 witness: the mutator property holds on the fixture, and the
fixture whose only rule has a malformed cookie mutator makes `Create`
fail. -/
theorem claim_C4_witness :
    List.Forall₂ mutatorAttachment (FilterDuplicatePaths testApi.rules) testVs.spec.http
    ∧ ∃ e, virtualServiceCreator.Create testCfg testApiBad = .error e :=
  ⟨(claim_C4_mutators testCfg testApi).1 testVs (by rfl),
   (claim_C4_mutators testCfg testApiBad).2 testRuleBadJwt (by decide) (by decide)
     (Or.inl ⟨"malformed cookie mutator", by rfl⟩)⟩

/-- C8: the desired VirtualService carries both ownership label keys,
each mapped to "<apiRuleName>.<apiRuleNamespace>", carries every
configured extra label, and lives in the APIRule's namespace. -/
theorem claim_C8_ownership_labels (r : virtualServiceCreator) (api : APIRule)
    (vs : VirtualService) (h : virtualServiceCreator.Create r api = .ok vs) :
    (OwnerLabel, api.name ++ "." ++ api.namespace') ∈ vs.labels
    ∧ (OwnerLabelv1alpha1, api.name ++ "." ++ api.namespace') ∈ vs.labels
    ∧ (∀ l ∈ r.additionalLabels, l ∈ vs.labels)
    ∧ vs.namespace' = api.namespace' := by
  obtain ⟨-, -, -, hns, -, hlab, -, -⟩ := Create_ok_elim h
  refine ⟨?_, ?_, ?_, hns⟩
  · rw [hlab]
    simp
  · rw [hlab]
    simp
  · intro l hl
    rw [hlab]
    simp [hl]

/-- C8 witness: the ownership-label contract holds for the fixture. -/
theorem claim_C8_witness :
    (OwnerLabel, testApi.name ++ "." ++ testApi.namespace') ∈ testVs.labels
    ∧ (OwnerLabelv1alpha1, testApi.name ++ "." ++ testApi.namespace') ∈ testVs.labels
    ∧ (∀ l ∈ testCfg.additionalLabels, l ∈ testVs.labels)
    ∧ testVs.namespace' = testApi.namespace' :=
  claim_C8_ownership_labels testCfg testApi testVs (by rfl)

/-- C2: with an actual object the diff emits an Update that keeps the
actual object's identity fields (name, namespace, resource version — and
also generate-name and labels) and replaces only the Spec by the desired
Spec; without one it emits a Create carrying the full desired object,
whose name is empty whenever it was produced by the creator. -/
theorem claim_C2_diff (desired : VirtualService) :
    (∀ a : VirtualService,
      (getObjectChanges desired (some a)).action = ActionKind.update
      ∧ (getObjectChanges desired (some a)).obj.name = a.name
      ∧ (getObjectChanges desired (some a)).obj.namespace' = a.namespace'
      ∧ (getObjectChanges desired (some a)).obj.resourceVersion = a.resourceVersion
      ∧ (getObjectChanges desired (some a)).obj.generateName = a.generateName
      ∧ (getObjectChanges desired (some a)).obj.labels = a.labels
      ∧ (getObjectChanges desired (some a)).obj.spec = desired.spec)
    ∧ ((getObjectChanges desired none).action = ActionKind.create
      ∧ (getObjectChanges desired none).obj = desired)
    ∧ (∀ r api, virtualServiceCreator.Create r api = .ok desired → desired.name = "") := by
  refine ⟨fun a => ⟨rfl, rfl, rfl, rfl, rfl, rfl, rfl⟩, ⟨rfl, rfl⟩, ?_⟩
  intro r api h
  exact (Create_ok_elim h).2.1

/-- C2 witness: the diff property at the concrete desired and actual
fixtures, with the creator-produced desired object's name empty. -/
theorem claim_C2_witness :
    (getObjectChanges testVs (some testActualVs)).action = ActionKind.update
    ∧ (getObjectChanges testVs (some testActualVs)).obj.name = testActualVs.name
    ∧ (getObjectChanges testVs (some testActualVs)).obj.resourceVersion
        = testActualVs.resourceVersion
    ∧ (getObjectChanges testVs (some testActualVs)).obj.spec = testVs.spec
    ∧ (getObjectChanges testVs none).action = ActionKind.create
    ∧ (getObjectChanges testVs none).obj = testVs
    ∧ testVs.name = "" := by
  obtain ⟨h1, h2, h3⟩ := claim_C2_diff testVs
  obtain ⟨a1, a2, _, a4, _, _, a7⟩ := h1 testActualVs
  exact ⟨a1, a2, a4, a7, h2.1, h2.2, h3 testCfg testApi (by rfl)⟩

/-- C5: a desired-state error or a lookup error is returned together with
an empty change list, and a successful pass returns exactly one change. -/
theorem claim_C5_single_change_or_error (create : APIRule → Except String VirtualService)
    (client : ClusterClient) (api : APIRule) :
    (∀ e, create api = .error e →
      EvaluateReconciliation create client api = ([], some e))
    ∧ (∀ d e, create api = .ok d → client (GetOwnerLabels api) = .error e →
      EvaluateReconciliation create client api = ([], some e))
    ∧ (∀ changes, EvaluateReconciliation create client api = (changes, none) →
      changes.length = 1) := by
  refine ⟨?_, ?_, ?_⟩
  · intro e he
    simp only [EvaluateReconciliation, he]
  · intro d e hd he
    simp only [EvaluateReconciliation, hd, getActualState, he]
  · intro changes h
    simp only [EvaluateReconciliation] at h
    split at h
    · injection h with h1 h2
      exact Option.noConfusion h2
    · split at h
      · injection h with h1 h2
        exact Option.noConfusion h2
      · injection h with h1 h2
        rw [← h1]
        rfl

/-- C5 witness: a creator error and a lookup error each come with the
empty change list, and a successful pass returns one change. -/
theorem claim_C5_witness :
    EvaluateReconciliation (virtualServiceCreator.Create testCfg) clientEmpty testApiBad
      = ([], some "malformed cookie mutator")
    ∧ EvaluateReconciliation (virtualServiceCreator.Create testCfg) clientErr testApi
      = ([], some "list failed")
    ∧ [getObjectChanges testVs none].length = 1 :=
  ⟨(claim_C5_single_change_or_error (virtualServiceCreator.Create testCfg) clientEmpty
      testApiBad).1 "malformed cookie mutator" (by rfl),
   (claim_C5_single_change_or_error (virtualServiceCreator.Create testCfg) clientErr
      testApi).2.1 testVs "list failed" (by rfl) (by rfl),
   (claim_C5_single_change_or_error (virtualServiceCreator.Create testCfg) clientEmpty
      testApi).2.2 [getObjectChanges testVs none] (by rfl)⟩

/-- C7: a lookup with zero items yields no actual object (and the pass
emits a Create), one or more items yield exactly the first item, and a
lookup error aborts the pass with zero changes. -/
theorem claim_C7_actual_state (create : APIRule → Except String VirtualService)
    (client : ClusterClient) (api : APIRule) :
    (client (GetOwnerLabels api) = .ok [] → getActualState client api = .ok none)
    ∧ (∀ v rest, client (GetOwnerLabels api) = .ok (v :: rest) →
        getActualState client api = .ok (some v))
    ∧ (∀ e d, client (GetOwnerLabels api) = .error e → create api = .ok d →
        EvaluateReconciliation create client api = ([], some e))
    ∧ (∀ d, create api = .ok d → client (GetOwnerLabels api) = .ok [] →
        EvaluateReconciliation create client api = ([NewObjectCreateAction d], none)) := by
  refine ⟨?_, ?_, ?_, ?_⟩
  · intro h
    simp only [getActualState, h]
  · intro v rest h
    simp only [getActualState, h]
  · intro e d h hd
    simp only [EvaluateReconciliation, hd, getActualState, h]
  · intro d hd h
    simp only [EvaluateReconciliation, hd, getActualState, h, getObjectChanges]

/-- C7 witness: the three lookup outcomes at concrete clients. -/
theorem claim_C7_witness :
    getActualState clientEmpty testApi = .ok none
    ∧ getActualState clientTwo testApi = .ok (some testActualVs)
    ∧ EvaluateReconciliation (virtualServiceCreator.Create testCfg) clientErr testApi
      = ([], some "list failed")
    ∧ EvaluateReconciliation (virtualServiceCreator.Create testCfg) clientEmpty testApi
      = ([NewObjectCreateAction testVs], none) :=
  ⟨(claim_C7_actual_state (virtualServiceCreator.Create testCfg) clientEmpty testApi).1 rfl,
   (claim_C7_actual_state (virtualServiceCreator.Create testCfg) clientTwo
      testApi).2.1 testActualVs [fallbackVs] rfl,
   (claim_C7_actual_state (virtualServiceCreator.Create testCfg) clientErr
      testApi).2.2.1 "list failed" testVs rfl (by rfl),
   (claim_C7_actual_state (virtualServiceCreator.Create testCfg) clientEmpty
      testApi).2.2.2 testVs (by rfl) rfl⟩

/-- C9: the token helper either returns a valid Bearer token's access
token with no error, or returns the empty string together with exactly
one of a transport error, an invalid/expired-token error (when validity
fails) or a wrong-token-type error (when the type is not Bearer). -/
theorem claim_C9_token_outcomes (fetchToken : OAuth2Cfg → HttpClient → Except String Token)
    (oauth2Cfg : OAuth2Cfg) (config : JwtConfig) (tokenType : List String) :
    (∃ t, fetchToken (applyTokenFormat oauth2Cfg tokenType) (buildHttpClient config) = .ok t
      ∧ t.Valid = true ∧ t.tokenType = "Bearer"
      ∧ GetAccessToken fetchToken oauth2Cfg config tokenType = (t.accessToken, none))
    ∨ ((GetAccessToken fetchToken oauth2Cfg config tokenType).1 = ""
      ∧ ((∃ m, fetchToken (applyTokenFormat oauth2Cfg tokenType) (buildHttpClient config)
            = .error m
          ∧ (GetAccessToken fetchToken oauth2Cfg config tokenType).2
            = some (TokenError.transport m))
        ∨ (∃ t, fetchToken (applyTokenFormat oauth2Cfg tokenType) (buildHttpClient config)
            = .ok t
          ∧ t.Valid = false
          ∧ (GetAccessToken fetchToken oauth2Cfg config tokenType).2
            = some (TokenError.invalidToken t))
        ∨ (∃ t, fetchToken (applyTokenFormat oauth2Cfg tokenType) (buildHttpClient config)
            = .ok t
          ∧ t.Valid = true ∧ t.tokenType ≠ "Bearer"
          ∧ (GetAccessToken fetchToken oauth2Cfg config tokenType).2
            = some (TokenError.wrongTokenType t.tokenType)))) := by
  cases hf : fetchToken (applyTokenFormat oauth2Cfg tokenType) (buildHttpClient config) with
  | error m =>
    right
    refine ⟨?_, Or.inl ⟨m, rfl, ?_⟩⟩ <;> simp [GetAccessToken, hf]
  | ok t =>
    by_cases hv : t.Valid = true
    · by_cases hb : t.tokenType = "Bearer"
      · left
        exact ⟨t, rfl, hv, hb, by simp [GetAccessToken, hf, hv, hb]⟩
      · right
        refine ⟨?_, Or.inr (Or.inr ⟨t, rfl, hv, hb, ?_⟩)⟩ <;>
          simp [GetAccessToken, hf, hv, hb]
    · right
      have hv' : t.Valid = false := by
        cases hvb : t.Valid
        · rfl
        · exact absurd hvb hv
      refine ⟨?_, Or.inr (Or.inl ⟨t, rfl, hv', ?_⟩)⟩ <;> simp [GetAccessToken, hf, hv']

/-- C10: the HTTP client built by `GetAccessToken` disables TLS
certificate verification for every input, and `GetAccessToken` hands the
token-fetch collaborator exactly that client regardless of all inputs. -/
theorem claim_C10_insecure_tls :
    (∀ config : JwtConfig, (buildHttpClient config).tlsInsecureSkipVerify = true)
    ∧ (∀ (fetchToken : OAuth2Cfg → HttpClient → Except String Token)
        (oauth2Cfg : OAuth2Cfg) (config : JwtConfig) (tokenType : List String),
        GetAccessToken fetchToken oauth2Cfg config tokenType
          = GetAccessToken (fun c _ => fetchToken c (buildHttpClient config))
              oauth2Cfg config tokenType) :=
  ⟨fun _ => rfl, fun _ _ _ _ => rfl⟩
